import Mathlib

/-!
Shallow embedding of `main.py`, a small CLI assistant with a local
rule-based responder and an optional OpenAI-backed remote responder.

Strings are modelled by Lean `String` viewed as its list of characters;
the Python string methods used by the program (`lower`, `strip`,
`startswith`, slicing, substring containment) are modelled character by
character on that list, matching Python on the ASCII text the program
manipulates.  The wall clock read by the time rule and the outcome of
the one OpenAI network call are passed in explicitly as external inputs.
-/

/-- One conversation turn: the dict appended by `add_user` /
`add_assistant`, with keys "role" and "text" in that insertion order. -/
structure Turn where
  role : String
  text : String
deriving DecidableEq, Repr

/-- The state of class `Assistant`: the history list and the resolved
`use_openai` flag (set once in `__init__`, never written afterwards). -/
structure Assistant where
  history : List Turn
  use_openai : Bool
deriving DecidableEq, Repr

/-- Whitespace characters Python `str.strip()` removes from ASCII text. -/
def pyWhitespace (c : Char) : Bool :=
  c = ' ' || c = '\t' || c = '\n' || c = '\r' || c = '\x0b' || c = '\x0c'

/-- Python `s.strip()` on ASCII text: drop whitespace at both ends. -/
def pyStrip (s : String) : String :=
  ⟨((s.data.dropWhile pyWhitespace).reverse.dropWhile pyWhitespace).reverse⟩

/-- Python `s.lower()` on ASCII text. -/
def pyLower (s : String) : String :=
  ⟨s.data.map Char.toLower⟩

/-- Python `s.startswith(pre)`. -/
def pyStartsWith (s pre : String) : Bool :=
  pre.data.isPrefixOf s.data

/-- Substring search on character lists: some suffix has `pat` as prefix. -/
def hasSubList (pat : List Char) : List Char → Bool
  | [] => pat.isEmpty
  | c :: t => pat.isPrefixOf (c :: t) || hasSubList pat t

/-- Python `pat in s` substring containment. -/
def strContains (s pat : String) : Bool :=
  hasSubList pat.data s.data

/-- Python `s[n:]` slicing by code points. -/
def pyDropChars (s : String) (n : Nat) : String :=
  ⟨s.data.drop n⟩

/-- Lower-case hexadecimal digit, as Python's json encoder writes it. -/
def hexDigit (n : Nat) : Char :=
  if n < 10 then Char.ofNat (48 + n) else Char.ofNat (87 + n)

/-- A `\uXXXX` escape as `json.dumps` (with its default `ensure_ascii`)
writes it. -/
def uEscape (n : Nat) : String :=
  "\\u" ++ ⟨[hexDigit (n / 4096 % 16), hexDigit (n / 256 % 16),
             hexDigit (n / 16 % 16), hexDigit (n % 16)]⟩

/-- How `json.dumps` encodes one character of a string value. -/
def jsonEscapeChar (c : Char) : String :=
  if c = '"' then "\\\""
  else if c = '\\' then "\\\\"
  else if c = '\n' then "\\n"
  else if c = '\r' then "\\r"
  else if c = '\t' then "\\t"
  else if c = '\x08' then "\\b"
  else if c = '\x0c' then "\\f"
  else if c.toNat < 32 then uEscape c.toNat
  else if c.toNat < 127 then ⟨[c]⟩
  else if c.toNat < 65536 then uEscape c.toNat
  else uEscape (55296 + (c.toNat - 65536) / 1024) ++
       uEscape (56320 + (c.toNat - 65536) % 1024)

/-- `json.dumps` encoding of a string value. -/
def jsonStr (s : String) : String :=
  "\"" ++ String.join (s.data.map jsonEscapeChar) ++ "\""

/-- One history entry as `json.dumps(..., indent=2)` renders it inside
the list (keys in dict insertion order: "role" then "text"). -/
def turnJson (t : Turn) : String :=
  "  \x7b\n    \"role\": " ++ jsonStr t.role ++ ",\n    \"text\": " ++
    jsonStr t.text ++ "\n  \x7d"

/-- Join with a separator, as the json encoder joins list items. -/
def joinSep (sep : String) : List String → String
  | [] => ""
  | [s] => s
  | s :: rest => s ++ sep ++ joinSep sep rest

/-- `json.dumps(ts, indent=2)` for a list of history entries. -/
def jsonDumpsIndent2 (ts : List Turn) : String :=
  match ts with
  | [] => "[]"
  | _ => "[\n" ++ joinSep ",\n" (ts.map turnJson) ++ "\n]"

/-- The fixed greeting of rule 1 of `_local_answer`. -/
def greetingText : String :=
  "Hello! I am your local assistant. Ask me to do something or type /help for commands."

/-- The fixed identity statement of rule 2 of `_local_answer`. -/
def identityText : String :=
  "I\x27m a small CLI assistant. You can run me with an OpenAI key to use the OpenAI API."

/-- The fixed fallback string of `_local_answer`. -/
def fallbackText : String :=
  "I don\x27t know that yet. Try /help or run with OPENAI_API_KEY for smarter answers."

namespace Assistant

/-- The help text returned by `_help_text`. -/
def helpText : String :=
  "Commands:\n" ++
  "  /help        Show this help\n" ++
  "  /exit        Exit the assistant\n" ++
  "  /history     Show the last interactions (JSON)\n" ++
  "  /mode        Show current mode (local or openai)\n" ++
  "You can also ask normal questions. Prefix with \x27echo \x27 to echo text."

/-- `Assistant.add_user`: append a user turn. -/
def add_user (a : Assistant) (text : String) : Assistant :=
  { a with history := a.history ++ [⟨"user", text⟩] }

/-- `Assistant.add_assistant`: append an assistant turn. -/
def add_assistant (a : Assistant) (text : String) : Assistant :=
  { a with history := a.history ++ [⟨"assistant", text⟩] }

/-- `Assistant._local_answer`: the rule responder.  `now` is the wall
clock reading `datetime.now().isoformat()` used by the time rule. -/
def localAnswer (a : Assistant) (now : String) (prompt : String) : String :=
  let lp := pyStrip (pyLower prompt)
  if lp == "hi" || lp == "hello" || lp == "hey" then
    greetingText
  else if pyStartsWith lp "what is your name" || pyStartsWith lp "who are you" then
    identityText
  else if pyStartsWith lp "time" || strContains lp "time" then
    "Current time: " ++ now
  else if pyStartsWith lp "echo " then
    pyDropChars prompt 5
  else if lp == "help" || lp == "/help" then
    helpText
  else if lp == "history" || lp == "/history" then
    jsonDumpsIndent2 (a.history.drop (a.history.length - 10))
  else
    fallbackText

/-- Outcome of the one OpenAI ChatCompletion call: the content string of
the first choice, or the text of the exception raised (network, auth,
malformed response are all caught by the same `except`). -/
inductive RemoteOutcome where
  | success (content : String)
  | failure (err : String)
deriving DecidableEq, Repr

/-- One message of the chat-completion request payload. -/
structure Msg where
  role : String
  content : String
deriving DecidableEq, Repr

/-- The chat-completion request `_ask_openai` sends. -/
structure ChatRequest where
  model : String
  messages : List Msg
  max_tokens : Nat
deriving DecidableEq, Repr

/-- The request `_ask_openai` builds when called on state `a`: every
entry of `self.history` mapped to role/content, then the new user
message appended, with `max_tokens=300`.  `model` is the OPENAI_MODEL
environment value, defaulting to "gpt-3.5-turbo". -/
def askOpenaiRequest (a : Assistant) (model : String) (prompt : String) : ChatRequest :=
  { model := model
    messages := a.history.map (fun h => ⟨h.role, h.text⟩) ++ [⟨"user", prompt⟩]
    max_tokens := 300 }

/-- The string `_ask_openai` returns: the stripped first-choice content
on success, and "OpenAI request failed: <e>" when any exception is
caught — it never propagates a fault. -/
def askOpenai (outcome : RemoteOutcome) : String :=
  match outcome with
  | .success content => pyStrip content
  | .failure e => "OpenAI request failed: " ++ e

/-- External inputs one `answer` call may read: the wall clock and the
outcome of the remote call. -/
structure Ext where
  now : String
  remote : RemoteOutcome
deriving Repr

/-- `Assistant.answer`: append the user turn, pick the responder from
the resolved mode, append the assistant turn, return the response. -/
def answer (a : Assistant) (ext : Ext) (prompt : String) : String × Assistant :=
  let a1 := add_user a prompt
  let resp := if a1.use_openai then askOpenai ext.remote else localAnswer a1 ext.now prompt
  (resp, add_assistant a1 resp)

/-- The notice printed when remote mode is requested without a key. -/
def keyMissingNotice : String :=
  "OPENAI_API_KEY not found in environment; falling back to local mode."

/-- The notice printed when importing the openai client fails. -/
def importFailNotice (e : String) : String :=
  "Failed to import OpenAI client: " ++ e ++ ". Falling back to local mode."

/-- `Assistant.__init__`: resolve `use_openai` from the requested flag
and key presence, printing a notice when remote is requested without a
key; when the resolved mode is remote, a failed client import
(`importError = some e`) falls the mode back to local with a second
notice.  Returns the constructed state and the printed notices. -/
def init (use_openai : Bool) (keyPresent : Bool) (importError : Option String) :
    Assistant × List String :=
  let resolved := use_openai && keyPresent
  let notices := if use_openai && !keyPresent then [keyMissingNotice] else []
  if resolved then
    match importError with
    | none => ({ history := [], use_openai := true }, notices)
    | some e => ({ history := [], use_openai := false }, notices ++ [importFailNotice e])
  else
    ({ history := [], use_openai := false }, notices)

/-- The `/mode` command of the repl: prints "openai" when `use_openai`
is set, else "local". -/
def modeString (a : Assistant) : String :=
  if a.use_openai then "openai" else "local"

/-- Run a sequence of `answer` calls, keeping the final state. -/
def runAnswers (a : Assistant) (inputs : List (Ext × String)) : Assistant :=
  inputs.foldl (fun s i => (answer s i.1 i.2).2) a

end Assistant

namespace Assistant

@[simp]
theorem use_openai_add_user (a : Assistant) (t : String) :
    (a.add_user t).use_openai = a.use_openai := rfl

@[simp]
theorem use_openai_add_assistant (a : Assistant) (t : String) :
    (a.add_assistant t).use_openai = a.use_openai := rfl

@[simp]
theorem history_add_user (a : Assistant) (t : String) :
    (a.add_user t).history = a.history ++ [⟨"user", t⟩] := rfl

@[simp]
theorem history_add_assistant (a : Assistant) (t : String) :
    (a.add_assistant t).history = a.history ++ [⟨"assistant", t⟩] := rfl

@[simp]
theorem answer_use_openai (a : Assistant) (ext : Ext) (p : String) :
    ((a.answer ext p).2).use_openai = a.use_openai := rfl

theorem answer_history (a : Assistant) (ext : Ext) (p : String) :
    ((a.answer ext p).2).history
      = a.history ++ [⟨"user", p⟩, ⟨"assistant", (a.answer ext p).1⟩] := by
  simp [answer, add_user, add_assistant]

theorem runAnswers_cons (a : Assistant) (i : Ext × String) (rest : List (Ext × String)) :
    a.runAnswers (i :: rest) = ((a.answer i.1 i.2).2).runAnswers rest := rfl

theorem runAnswers_use_openai (inputs : List (Ext × String)) :
    ∀ a : Assistant, (a.runAnswers inputs).use_openai = a.use_openai := by
  induction inputs with
  | nil => intro a; rfl
  | cons i rest ih =>
    intro a
    rw [runAnswers_cons, ih, answer_use_openai]

theorem init_history (u k : Bool) (i : Option String) :
    ((init u k i).1).history = [] := by
  cases u <;> cases k <;> cases i <;> rfl

/-- The transcript invariant of C9: even length, the turn at each even
index a user turn, at each odd index an assistant turn. -/
def Alternating (l : List Turn) : Prop :=
  l.length % 2 = 0 ∧
    ∀ i : Fin l.length, (l.get i).role = if i.val % 2 = 0 then "user" else "assistant"

theorem alternating_nil : Alternating [] :=
  ⟨rfl, fun i => i.elim0⟩

theorem alternating_append (l : List Turn) (p r : String) (h : Alternating l) :
    Alternating (l ++ [⟨"user", p⟩, ⟨"assistant", r⟩]) := by
  obtain ⟨hlen, hrole⟩ := h
  refine ⟨by simp; omega, ?_⟩
  rintro ⟨i, hi⟩
  simp only [List.length_append, List.length_cons, List.length_nil] at hi
  simp only [List.get_eq_getElem]
  by_cases hil : i < l.length
  · rw [List.getElem_append_left hil]
    simpa [List.get_eq_getElem] using hrole ⟨i, hil⟩
  · have h2 : i = l.length ∨ i = l.length + 1 := by omega
    have hge : l.length ≤ i := by omega
    rw [List.getElem_append_right hge]
    rcases h2 with h3 | h3
    · have h4 : i - l.length = 0 := by omega
      have h5 : i % 2 = 0 := by omega
      simp [h4, h5]
    · have h4 : i - l.length = 1 := by omega
      have h5 : i % 2 = 1 := by omega
      simp [h4, h5]

theorem runAnswers_alternating (inputs : List (Ext × String)) :
    ∀ a : Assistant, Alternating a.history → Alternating (a.runAnswers inputs).history := by
  induction inputs with
  | nil => intro a h; exact h
  | cons i rest ih =>
    intro a h
    rw [runAnswers_cons]
    refine ih _ ?_
    rw [answer_history]
    exact alternating_append _ _ _ h

end Assistant

namespace Assistant

/-- C1: every `answer` call appends exactly two turns to the transcript —
first a user turn holding the query, then an assistant turn holding the
returned response text — in both modes and for every remote outcome,
remote failures included. -/
theorem answer_appends_two_turns (a : Assistant) (ext : Ext) (prompt : String) :
    ((a.answer ext prompt).2).history
      = a.history ++ [⟨"user", prompt⟩, ⟨"assistant", (a.answer ext prompt).1⟩] :=
  answer_history a ext prompt

/-- C2 evaluation: on a fresh remote-mode assistant answering "hi", the
request `_ask_openai` builds (after `answer` has already appended the
user turn) carries the new query twice — `self.history` already holds
the just-appended user turn and the prompt is appended once more — with
`max_tokens` 300. -/
theorem remote_request_duplicates_query :
    (askOpenaiRequest ((⟨[], true⟩ : Assistant).add_user "hi") "gpt-3.5-turbo" "hi").messages
        = [⟨"user", "hi"⟩, ⟨"user", "hi"⟩]
      ∧ (askOpenaiRequest ((⟨[], true⟩ : Assistant).add_user "hi") "gpt-3.5-turbo" "hi").max_tokens
        = 300 :=
  ⟨rfl, rfl⟩

/-- C3: when the remote call fails, `_ask_openai` returns the string
"OpenAI request failed: <error detail>" instead of propagating a fault,
and `answer` still returns normally with that string, both turns
appended. -/
theorem remote_failure_returns_error_string (a : Assistant) (now e prompt : String)
    (h : a.use_openai = true) :
    (a.answer ⟨now, .failure e⟩ prompt).1 = "OpenAI request failed: " ++ e
      ∧ ((a.answer ⟨now, .failure e⟩ prompt).2).history
          = a.history ++ [⟨"user", prompt⟩, ⟨"assistant", "OpenAI request failed: " ++ e⟩] := by
  have h1 : (a.answer ⟨now, .failure e⟩ prompt).1 = "OpenAI request failed: " ++ e := by
    simp [answer, askOpenai, h]
  refine ⟨h1, ?_⟩
  rw [answer_history, h1]

/-- C3 witness: a concrete remote failure. -/
theorem remote_failure_returns_error_string_witness :
    ((⟨[], true⟩ : Assistant).answer ⟨"now", .failure "boom"⟩ "hi").1
        = "OpenAI request failed: boom"
      ∧ (((⟨[], true⟩ : Assistant).answer ⟨"now", .failure "boom"⟩ "hi").2).history
          = [⟨"user", "hi"⟩, ⟨"assistant", "OpenAI request failed: boom"⟩] := by
  have h := remote_failure_returns_error_string ⟨[], true⟩ "now" "boom" "hi" rfl
  simpa using h

/-- C4: constructing with remote requested but no credential resolves the
mode to local, emits exactly the one key-missing notice at construction,
and every subsequent `answer` call on any state reached from it answers
through the rule responder `localAnswer`. -/
theorem init_no_key_falls_back_local (importError : Option String) :
    init true false importError
        = ({ history := [], use_openai := false }, [keyMissingNotice])
      ∧ ((init true false importError).2).length = 1
      ∧ ∀ (inputs : List (Ext × String)) (ext : Ext) (p : String),
          ((((init true false importError).1).runAnswers inputs).answer ext p).1
            = localAnswer ((((init true false importError).1).runAnswers inputs).add_user p)
                ext.now p := by
  refine ⟨rfl, rfl, ?_⟩
  intro inputs ext p
  have hu : ((((init true false importError).1).runAnswers inputs)).use_openai = false := by
    rw [runAnswers_use_openai]
    rfl
  simp [answer, hu]

end Assistant

namespace Assistant

/-- C5: a query whose normalized (stripped, lowercased) form starts with
"echo " and matches none of the earlier rules is answered with the raw
query minus its first five characters, unmodified, casing preserved. -/
theorem echo_rule_drops_five_chars (a : Assistant) (now prompt : String)
    (h1 : (pyStrip (pyLower prompt) == "hi" || pyStrip (pyLower prompt) == "hello" ||
           pyStrip (pyLower prompt) == "hey") = false)
    (h2 : (pyStartsWith (pyStrip (pyLower prompt)) "what is your name" ||
           pyStartsWith (pyStrip (pyLower prompt)) "who are you") = false)
    (h3 : (pyStartsWith (pyStrip (pyLower prompt)) "time" ||
           strContains (pyStrip (pyLower prompt)) "time") = false)
    (h4 : pyStartsWith (pyStrip (pyLower prompt)) "echo " = true) :
    a.localAnswer now prompt = pyDropChars prompt 5 := by
  simp [localAnswer, h1, h2, h3, h4]

/-- C5 witness: `echo hello World` echoes "hello World" exactly. -/
theorem echo_rule_drops_five_chars_witness :
    (⟨[], false⟩ : Assistant).localAnswer "now" "echo hello World" = "hello World" := by
  have h := echo_rule_drops_five_chars ⟨[], false⟩ "now" "echo hello World"
    (by decide) (by decide) (by decide) (by decide)
  exact h.trans (by decide)

theorem jsonDumpsIndent2_head (l : List Turn) :
    (jsonDumpsIndent2 l).data.head? = some '[' := by
  cases l <;> rfl

theorem jsonDumpsIndent2_ne_helpText (l : List Turn) :
    jsonDumpsIndent2 l ≠ helpText := by
  intro h
  have h1 := congrArg (fun s => s.data.head?) h
  simp only at h1
  rw [jsonDumpsIndent2_head l] at h1
  exact absurd h1 (by decide)

/-- C6 counterexample: the normalized query "/help" is not an exact match
for "help", yet the rule responder returns the help text there, not the
fallback string. -/
theorem slash_help_returns_help_text :
    (⟨[], false⟩ : Assistant).localAnswer "now" "/help" = helpText
      ∧ ¬ (⟨[], false⟩ : Assistant).localAnswer "now" "/help" = fallbackText :=
  ⟨rfl, by decide⟩

/-- C6 amended: once rules 1-4 fail, the help text is returned exactly
for the normalized queries "help" and "/help", and a normalized query
matching neither those nor "history"/"/history" gets the fixed fallback
string. -/
theorem help_rule_matches_slash_help (a : Assistant) (now prompt : String)
    (h1 : (pyStrip (pyLower prompt) == "hi" || pyStrip (pyLower prompt) == "hello" ||
           pyStrip (pyLower prompt) == "hey") = false)
    (h2 : (pyStartsWith (pyStrip (pyLower prompt)) "what is your name" ||
           pyStartsWith (pyStrip (pyLower prompt)) "who are you") = false)
    (h3 : (pyStartsWith (pyStrip (pyLower prompt)) "time" ||
           strContains (pyStrip (pyLower prompt)) "time") = false)
    (h4 : pyStartsWith (pyStrip (pyLower prompt)) "echo " = false) :
    (a.localAnswer now prompt = helpText
        ↔ (pyStrip (pyLower prompt) == "help" || pyStrip (pyLower prompt) == "/help") = true)
      ∧ ((pyStrip (pyLower prompt) == "help" || pyStrip (pyLower prompt) == "/help") = false →
         (pyStrip (pyLower prompt) == "history" || pyStrip (pyLower prompt) == "/history") = false →
         a.localAnswer now prompt = fallbackText) := by
  constructor
  · constructor
    · intro he
      rcases Bool.eq_false_or_eq_true
          (pyStrip (pyLower prompt) == "help" || pyStrip (pyLower prompt) == "/help") with h5 | h5
      · exact h5
      · rcases Bool.eq_false_or_eq_true
            (pyStrip (pyLower prompt) == "history" || pyStrip (pyLower prompt) == "/history")
            with h6 | h6
        · have hj : a.localAnswer now prompt
              = jsonDumpsIndent2 (a.history.drop (a.history.length - 10)) := by
            simp [localAnswer, h1, h2, h3, h4, h5, h6]
          rw [hj] at he
          exact absurd he (jsonDumpsIndent2_ne_helpText _)
        · have hf : a.localAnswer now prompt = fallbackText := by
            simp [localAnswer, h1, h2, h3, h4, h5, h6]
          rw [hf] at he
          exact absurd he (by decide)
    · intro hc
      simp [localAnswer, h1, h2, h3, h4, hc]
  · intro h5 h6
    simp [localAnswer, h1, h2, h3, h4, h5, h6]

/-- C6 witness: "/halp" matches no rule at all, so the fallback is
returned. -/
theorem help_rule_matches_slash_help_witness :
    (⟨[], false⟩ : Assistant).localAnswer "now" "/halp" = fallbackText :=
  (help_rule_matches_slash_help ⟨[], false⟩ "now" "/halp"
    (by decide) (by decide) (by decide) (by decide)).2 (by decide) (by decide)

theorem local_history_eq (a : Assistant) (now : String) :
    a.localAnswer now "history"
      = jsonDumpsIndent2 (a.history.drop (a.history.length - 10)) := by
  have e1 : (pyStrip (pyLower "history") == "hi" || pyStrip (pyLower "history") == "hello" ||
      pyStrip (pyLower "history") == "hey") = false := by decide
  have e2 : (pyStartsWith (pyStrip (pyLower "history")) "what is your name" ||
      pyStartsWith (pyStrip (pyLower "history")) "who are you") = false := by decide
  have e3 : (pyStartsWith (pyStrip (pyLower "history")) "time" ||
      strContains (pyStrip (pyLower "history")) "time") = false := by decide
  have e4 : pyStartsWith (pyStrip (pyLower "history")) "echo " = false := by decide
  have e5 : (pyStrip (pyLower "history") == "help" ||
      pyStrip (pyLower "history") == "/help") = false := by decide
  have e6 : (pyStrip (pyLower "history") == "history" ||
      pyStrip (pyLower "history") == "/history") = true := by decide
  simp [localAnswer, e1, e2, e3, e4, e5, e6]

/-- C7: the "history" query is answered with `json.dumps(..., indent=2)`
of the last min(10, length) turns, a suffix of the transcript taken in
append order. -/
theorem history_query_returns_last_ten (a : Assistant) (now : String) :
    a.localAnswer now "history" = jsonDumpsIndent2 (a.history.drop (a.history.length - 10))
      ∧ (a.history.drop (a.history.length - 10)).length = min 10 a.history.length
      ∧ a.history.drop (a.history.length - 10) <:+ a.history := by
  refine ⟨local_history_eq a now, ?_, List.drop_suffix _ _⟩
  rw [List.length_drop]
  omega

end Assistant

namespace Assistant

/-- C8 counterexample: on a reachable remote-mode dispatcher the mode
inspection prints "openai", not "remote". -/
theorem mode_remote_prints_openai :
    modeString (((init true true none).1).runAnswers []) = "openai"
      ∧ ¬ modeString (((init true true none).1).runAnswers []) = "remote" :=
  ⟨rfl, by decide⟩

/-- C8 amended: on every reachable dispatcher state the mode is the one
resolved at construction, and the inspection returns "openai" when that
resolved mode is remote and "local" when it is local. -/
theorem modeString_fixed_at_construction (use key : Bool) (imp : Option String)
    (inputs : List (Ext × String)) :
    ((((init use key imp).1).runAnswers inputs)).use_openai = ((init use key imp).1).use_openai
      ∧ modeString (((init use key imp).1).runAnswers inputs)
          = (if ((init use key imp).1).use_openai then "openai" else "local") := by
  refine ⟨runAnswers_use_openai _ _, ?_⟩
  rw [modeString, runAnswers_use_openai]

/-- C9: after any sequence of `answer` calls on a freshly constructed
assistant, the transcript has even length and alternates roles, user at
every even index, assistant at every odd index. -/
theorem transcript_alternates (use key : Bool) (imp : Option String)
    (inputs : List (Ext × String)) :
    Alternating ((((init use key imp).1).runAnswers inputs)).history := by
  apply runAnswers_alternating
  rw [init_history]
  exact alternating_nil

theorem drop_last_concat {α : Type} (l : List α) (t : α) :
    ((l ++ [t]).drop ((l ++ [t]).length - 10)).getLast? = some t := by
  by_cases h : (l ++ [t]).length - 10 = 0
  · rw [h, List.drop_zero, List.getLast?_concat]
  · have hle : (l ++ [t]).length - 10 ≤ l.length := by
      simp only [List.length_append, List.length_cons, List.length_nil]
      omega
    rw [List.drop_append_of_le_length hle, List.getLast?_concat]

/-- C10: in a dispatcher whose resolved mode is local, answering
"history" serializes the slice of the transcript as it stands after the
user turn was appended, so the slice ends with the user turn holding the
query itself, and the transcript has odd length at that moment. -/
theorem history_includes_current_query (use key : Bool) (imp : Option String)
    (inputs : List (Ext × String)) (ext : Ext)
    (h : ((init use key imp).1).use_openai = false) :
    ((((init use key imp).1).runAnswers inputs).answer ext "history").1
        = jsonDumpsIndent2
            (((((init use key imp).1).runAnswers inputs).add_user "history").history.drop
              (((((init use key imp).1).runAnswers inputs).add_user "history").history.length - 10))
      ∧ (((((init use key imp).1).runAnswers inputs).add_user "history").history.drop
            (((((init use key imp).1).runAnswers inputs).add_user "history").history.length - 10)).getLast?
          = some ⟨"user", "history"⟩
      ∧ ((((init use key imp).1).runAnswers inputs).add_user "history").history.length % 2 = 1 := by
  have hu : ((((init use key imp).1).runAnswers inputs)).use_openai = false := by
    rw [runAnswers_use_openai]
    exact h
  have halt : Alternating ((((init use key imp).1).runAnswers inputs)).history := by
    apply runAnswers_alternating
    rw [init_history]
    exact alternating_nil
  refine ⟨?_, ?_, ?_⟩
  · have ha : ((((init use key imp).1).runAnswers inputs).answer ext "history").1
        = localAnswer ((((init use key imp).1).runAnswers inputs).add_user "history")
            ext.now "history" := by
      simp [answer, hu]
    rw [ha, local_history_eq]
  · rw [history_add_user]
    exact drop_last_concat _ _
  · rw [history_add_user]
    simp only [List.length_append, List.length_cons, List.length_nil]
    have := halt.1
    omega

/-- C10 witness: the empty fresh local dispatcher. -/
theorem history_includes_current_query_witness :
    ((((init false false none).1).runAnswers []).answer ⟨"now", .success ""⟩ "history").1
        = jsonDumpsIndent2
            (((((init false false none).1).runAnswers []).add_user "history").history.drop
              (((((init false false none).1).runAnswers []).add_user "history").history.length - 10))
      ∧ (((((init false false none).1).runAnswers []).add_user "history").history.drop
            (((((init false false none).1).runAnswers []).add_user "history").history.length - 10)).getLast?
          = some ⟨"user", "history"⟩
      ∧ ((((init false false none).1).runAnswers []).add_user "history").history.length % 2 = 1 :=
  history_includes_current_query false false none [] ⟨"now", .success ""⟩ rfl

end Assistant
